import Mathlib

/-!
# Verification of the interactive development-environment setup assistant

A shallow embedding of `src/main.py`: an interactive pipeline that validates a
git URL, probes the repository, selects a clone destination, clones, detects
dependency manifests, offers installations, and prepares a Python environment.

External effects (prompts, subprocess invocations, filesystem changes) are made
explicit: standard input is a list of lines consumed in order, the filesystem
is the list of existing paths, subprocess exit statuses are inputs, and every
observable action (a printed line, a command executed) is recorded as an
`Event` in order.
-/

namespace EntornoDesarrollo

/-- Python `str.lower()` (ASCII lowering, as used on the prompt answers). -/
def pyLower (s : String) : String := String.mk (s.data.map Char.toLower)

/-- Python `str.strip()`: drop leading and trailing whitespace. -/
def pyStrip (s : String) : String :=
  String.mk (((s.data.dropWhile Char.isWhitespace).reverse.dropWhile Char.isWhitespace).reverse)

/-- Split a character list on the path separator `/`. -/
def splitSlash : List Char → List (List Char)
  | [] => [[]]
  | c :: rest =>
    let r := splitSlash rest
    if c = '/' then [] :: r
    else
      match r with
      | [] => [[c]]
      | h :: t => (c :: h) :: t

/-- The `/`-separated segments of a path. -/
def pathSegments (p : String) : List String := (splitSlash p.data).map String.mk

/-- Join path segments back with `/`. -/
def joinSlash : List String → String
  | [] => ""
  | [a] => a
  | a :: rest => a ++ "/" ++ joinSlash rest

/-- `pathlib.Path(p).name`: the final path segment. -/
def pathName (p : String) : String := (pathSegments p).getLastD ""

/-- `os.path.join` restricted to the two-argument form used in the script. -/
def pathJoin (a b : String) : String := a ++ "/" ++ b

/-- Every level of a path, shortest first: `os.makedirs` creates each missing one. -/
def pathLevels (p : String) : List String :=
  let segs := pathSegments p
  (List.range segs.length).map (fun i => joinSlash (segs.take (i + 1)))

/-- `os.makedirs(p, exist_ok=True)` on a filesystem given as the list of existing
paths: the path and all of its missing ancestors come into existence. -/
def makedirs (fs : List String) (p : String) : List String :=
  pathLevels p ++ fs

/-- One observable action of the script. -/
inductive Event where
  /-- A line written to standard output. -/
  | print (line : String)
  /-- `subprocess.run` with an argument list; `checked` records `check=True`. -/
  | runCmd (cmd : List String) (checked : Bool)
  /-- `subprocess.run` with `shell=True`; `checked` records the `check` flag. -/
  | runShell (cmd : String) (checked : Bool)
  deriving DecidableEq

/-- `input(...)`: consume one line of standard input (empty at end of stream). -/
def readLine : List String → String × List String
  | [] => ("", [])
  | a :: r => (a, r)

/-- Outcome of an `os.makedirs` attempt for the custom destination (permission
and OS errors are environment conditions, so they are inputs of the model). -/
inductive MakedirsResult where
  | ok
  | permissionError
  | osError (msg : String)
  deriving DecidableEq

/-- `verificar_url_repositorio`: run `git ls-remote url` with `check=True`;
a zero exit is valid, a non-zero exit prints the report and is invalid. -/
def verificar_url_repositorio (url : String) (lsRemoteExit : Nat) :
    Bool × List Event :=
  if lsRemoteExit = 0 then
    (true, [Event.runCmd ["git", "ls-remote", url] true])
  else
    (false, [Event.runCmd ["git", "ls-remote", url] true,
             Event.print "URL no válido o no se pudo conectar al repositorio."])

/-- Result of the repository probe: `result = none` means the clone subprocess
raised and the exception propagates; `fs` is the filesystem afterwards. -/
structure ProbeOut where
  result : Option (String × List String)
  fs : List String
  events : List Event
  deriving DecidableEq

/-- `obtener_nombre_y_archivos_repositorio`: inside
`with tempfile.TemporaryDirectory()` the scratch directory `tempDir` is created,
a depth-1 clone runs with `check=True` (raising on a non-zero exit), the name is
the scratch directory's final segment and `probeFiles` is the `rglob` file
enumeration; the `with` block removes the scratch directory on every exit path,
exceptions included. -/
def obtener_nombre_y_archivos_repositorio (url : String) (fs : List String)
    (tempDir : String) (probeCloneExit : Nat) (probeFiles : List String) :
    ProbeOut :=
  let fsWith := tempDir :: fs
  let ev : List Event := [Event.runCmd ["git", "clone", "--depth", "1", url, tempDir] true]
  if probeCloneExit = 0 then
    { result := some (pathName tempDir, probeFiles),
      fs := fsWith.erase tempDir, events := ev }
  else
    { result := none, fs := fsWith.erase tempDir, events := ev }

/-- Result of the destination selector. -/
structure SelectOut where
  result : Option String
  fs : List String
  stdin : List String
  events : List Event

/-- `seleccionar_carpeta_clonacion`: print the default, read the answer,
`strip().lower()` it and compare with `"s"`; on yes read a path, strip it and
`os.makedirs(..., exist_ok=True)` it, turning a permission or OS error into a
report and a `None` result; on anything else return the default unchanged. -/
def seleccionar_carpeta_clonacion (default_dir : String) (fs : List String)
    (stdin : List String) (mk : MakedirsResult) : SelectOut :=
  let ev0 : List Event :=
    [Event.print ("Carpeta de clonación predeterminada: " ++ default_dir)]
  let (ans, stdin1) := readLine stdin
  let custom_dir := pyLower (pyStrip ans)
  if custom_dir = "s" then
    let (pathAns, stdin2) := readLine stdin1
    let user_dir := pyStrip pathAns
    match mk with
    | MakedirsResult.ok =>
        { result := some user_dir, fs := makedirs fs user_dir, stdin := stdin2,
          events := ev0 ++
            [Event.print ("Carpeta de clonación configurada en: " ++ user_dir)] }
    | MakedirsResult.permissionError =>
        { result := none, fs := fs, stdin := stdin2,
          events := ev0 ++
            [Event.print "Error: No tienes permisos para crear la carpeta en esa ubicación."] }
    | MakedirsResult.osError msg =>
        { result := none, fs := fs, stdin := stdin2,
          events := ev0 ++
            [Event.print ("Error: No se pudo crear la carpeta de clonación. Detalles: " ++ msg)] }
  else
    { result := some default_dir, fs := fs, stdin := stdin1, events := ev0 }

/-- The walk filter of `show_file_preview`: a path is previewed when it lies
under the folder and its containing directory is the folder itself or has base
name `src` or `lib`. -/
def previewShows (folder_path p : String) : Bool :=
  (folder_path ++ "/").data.isPrefixOf p.data &&
    (let parent := joinSlash ((pathSegments p).dropLast)
     parent == folder_path || pathName parent == "src" || pathName parent == "lib")

/-- `show_file_preview`: header, one line per previewed file, footer. -/
def show_file_preview (fs : List String) (folder_path : String) : List Event :=
  [Event.print "Vista previa de archivos en el proyecto:"]
    ++ (fs.filter (previewShows folder_path)).map (fun p => Event.print ("-  " ++ p))
    ++ [Event.print "Final de la vista previa de archivos."]

/-- Result of the real clone. -/
structure CloneOut where
  success : Bool
  fs : List String
  events : List Event

/-- `clone_repository`: create the destination with `os.makedirs` when it does
not exist, run the full clone with `check=True` catching the failure (report and
`False`), and on success print the confirmation and the file preview. On
success the repository's files (`repoFiles`, relative paths, an input of the
model since they come from the network) appear under the destination. -/
def clone_repository (repo_url destination_folder : String) (fs : List String)
    (cloneExit : Nat) (cloneStderr : String) (repoFiles : List String) : CloneOut :=
  let fs1 := if fs.contains destination_folder then fs
             else makedirs fs destination_folder
  let ev1 : List Event := [Event.runCmd ["git", "clone", repo_url, destination_folder] true]
  if cloneExit = 0 then
    let fs2 := repoFiles.map (pathJoin destination_folder) ++ fs1
    { success := true, fs := fs2,
      events := ev1
        ++ [Event.print ("Repositorio clonado con éxito en: " ++ destination_folder)]
        ++ show_file_preview fs2 destination_folder }
  else
    { success := false, fs := fs1,
      events := ev1 ++ [Event.print ("Error al clonar el repositorio: " ++ cloneStderr)] }

/-- `detect_dependencies`: existence checks for `package.json`,
`requirements.txt` else `Pipfile`, and `venv` in the project folder, building
the insertion-ordered dependency map and printing the findings and summary. -/
def detect_dependencies (fs : List String) (project_folder : String) :
    List (String × String) × List Event :=
  let ev0 : List Event := [Event.print "--- Detectando dependencias ---"]
  let nodeHit := fs.contains (pathJoin project_folder "package.json")
  let reqHit := fs.contains (pathJoin project_folder "requirements.txt")
  let pipfileHit := fs.contains (pathJoin project_folder "Pipfile")
  let venvHit := fs.contains (pathJoin project_folder "venv")
  let d1 : List (String × String) :=
    if nodeHit then [("Node.js", "package.json")] else []
  let ev1 : List Event :=
    if nodeHit then
      [Event.print "Archivo de configuración Node.js detectado (package.json)."]
    else []
  let d2 := if reqHit then d1 ++ [("Python", "requirements.txt")]
            else if pipfileHit then d1 ++ [("Python", "Pipfile")] else d1
  let ev2 : List Event :=
    if reqHit then
      [Event.print "Archivo de configuración de Python detectado (requirements.txt)."]
    else if pipfileHit then
      [Event.print "Archivo de configuración de Python detectado (Pipfile)."]
    else []
  let d3 := if venvHit then d2 ++ [("Python virtual environment", "venv")] else d2
  let ev3 : List Event :=
    if venvHit then [Event.print "Entorno virtual detectado (venv)."] else []
  let evSummary : List Event :=
    if d3.isEmpty then
      [Event.print "No se detectaron dependencias específicas en el proyecto."]
    else
      [Event.print "--- Resumen de dependencias detectadas ---"]
        ++ d3.map (fun kv => Event.print (kv.1 ++ " (configurado en: " ++ kv.2 ++ ")"))
  (d3, ev0 ++ ev1 ++ ev2 ++ ev3 ++ evSummary)

/-- `install_dependency`: announce the need, read the answer and `lower()` it
(no strip); on `"s"` print, run the install command with `check=True` catching
a failure into an error report; otherwise print the manual instructions.
Returns the remaining standard input and the events. -/
def install_dependency (dependency_name : String) (install_command : List String)
    (manual_instructions : String) (stdin : List String) (installExit : Nat) :
    List String × List Event :=
  let ev0 : List Event :=
    [Event.print ("Se necesita instalar " ++ dependency_name ++ ".")]
  let (choiceRaw, stdin1) := readLine stdin
  let choice := pyLower choiceRaw
  if choice = "s" then
    if installExit = 0 then
      (stdin1, ev0
        ++ [Event.print ("Instalando " ++ dependency_name ++ "..."),
            Event.runCmd install_command true,
            Event.print (dependency_name ++ " se instaló correctamente.")])
    else
      (stdin1, ev0
        ++ [Event.print ("Instalando " ++ dependency_name ++ "..."),
            Event.runCmd install_command true,
            Event.print ("Error: No se pudo instalar " ++ dependency_name ++ " automáticamente.")])
  else
    (stdin1, ev0
      ++ [Event.print ("Instrucciones para instalar " ++ dependency_name ++ " manualmente:"),
          Event.print manual_instructions])

/-- Which toolchain binaries `shutil.which` finds on the search path. -/
structure SysBins where
  git : Bool
  node : Bool
  npm : Bool
  python3 : Bool
  pip : Bool
  deriving DecidableEq

/-- Python `dep in dependencies` on the insertion-ordered dependency map. -/
def hasDep (dependencies : List (String × String)) (k : String) : Bool :=
  (dependencies.lookup k).isSome

/-- One iteration of the Phase B loop of `install_required_dependencies`: when
the ecosystem was detected, prompt (answer is `lower()`ed, no strip); on `"s"`
run the shell command with `check=False` — the exit status is read off the
environment and discarded, so it can never raise — else print the manual
instruction. -/
def phaseB_step (dependencies : List (String × String))
    (dep command manual_instruction : String) (stdin : List String)
    (shellExit : String → Nat) : List String × List Event :=
  if hasDep dependencies dep then
    let ev0 : List Event :=
      [Event.print ("Para completar la instalación de " ++ dep ++ ":")]
    let (ansRaw, stdin1) := readLine stdin
    let choice := pyLower ansRaw
    if choice = "s" then
      let _ := shellExit command
      (stdin1, ev0 ++ [Event.runShell command false,
                       Event.print (dep ++ " se configuró correctamente.")])
    else
      (stdin1, ev0 ++ [Event.print ("Instrucción: " ++ manual_instruction)])
  else (stdin, [])

/-- `install_required_dependencies`: abort when git is missing; Phase A checks
the Node and Python toolchains (offering `install_dependency` per missing one);
Phase B iterates `project_requirements` in insertion order (Node.js then
Python) offering the project-level install of each detected ecosystem. -/
def install_required_dependencies (bins : SysBins)
    (dependencies : List (String × String)) (stdin : List String)
    (cmdExit : List String → Nat) (shellExit : String → Nat) :
    List String × List Event :=
  if bins.git = false then
    (stdin, [Event.print "Error: Git no está instalado. Por favor, instala Git y vuelve a intentarlo."])
  else
    let (stdin1, ev1) :=
      if hasDep dependencies "Node.js" then
        if bins.node = false || bins.npm = false then
          install_dependency "Node.js y npm" ["npm", "install", "-g", "node"]
            "Visita https://nodejs.org para descargar e instalar Node.js y npm."
            stdin (cmdExit ["npm", "install", "-g", "node"])
        else (stdin, [Event.print "Node.js y npm ya están instalados."])
      else (stdin, [])
    let (stdin2, ev2) :=
      if hasDep dependencies "Python" then
        let (sA, evA) :=
          if bins.python3 = false then
            install_dependency "Python" ["apt-get", "install", "python3"]
              "Instala Python desde https://www.python.org/ para obtener la versión adecuada."
              stdin1 (cmdExit ["apt-get", "install", "python3"])
          else (stdin1, ([] : List Event))
        let (sB, evB) :=
          if bins.pip = false then
            install_dependency "pip" ["python3", "-m", "ensurepip", "--upgrade"]
              "Instala pip con el comando 'python3 -m ensurepip --upgrade' o descarga desde https://pip.pypa.io."
              sA (cmdExit ["python3", "-m", "ensurepip", "--upgrade"])
          else (sA, ([] : List Event))
        (sB, evA ++ evB)
      else (stdin1, ([] : List Event))
    let (stdin3, ev3) := phaseB_step dependencies "Node.js" "npm install"
        "Ejecuta 'npm install' en el directorio del proyecto." stdin2 shellExit
    let (stdin4, ev4) := phaseB_step dependencies "Python"
        "pip install -r requirements.txt"
        "Ejecuta 'pip install -r requirements.txt' en el entorno virtual."
        stdin3 shellExit
    (stdin4, ev1 ++ ev2 ++ ev3 ++ ev4)

/-- Result of the virtual-environment preparer; `raised = true` means the
`check=True` venv creation subprocess failed and the exception propagates. -/
structure VenvOut where
  raised : Bool
  fs : List String
  events : List Event

/-- `setup_python_virtualenv`: when no `venv` path exists, create it with
`sys.executable -m venv venv` (`check=True`, so a failure raises); otherwise
report that it exists; then print (never execute) the activation command picked
by `os.name`. -/
def setup_python_virtualenv (fs : List String) (osName pyExe : String)
    (venvExit : Nat) : VenvOut :=
  let activate_script :=
    if osName = "nt" then "venv\\Scripts\\activate.bat"
    else "source venv/bin/activate"
  if fs.contains "venv" then
    { raised := false, fs := fs,
      events := [Event.print "El entorno virtual ya existe.",
                 Event.print ("Para activar el entorno virtual, ejecute: " ++ activate_script)] }
  else
    if venvExit = 0 then
      { raised := false, fs := "venv" :: fs,
        events := [Event.print "Creando entorno virtual en Python...",
                   Event.runCmd [pyExe, "-m", "venv", "venv"] true,
                   Event.print "Entorno virtual creado.",
                   Event.print ("Para activar el entorno virtual, ejecute: " ++ activate_script)] }
    else
      { raised := true, fs := fs,
        events := [Event.print "Creando entorno virtual en Python...",
                   Event.runCmd [pyExe, "-m", "venv", "venv"] true] }

/-- `setup_environment_variables`: load `.env` into the process environment
when present, otherwise print the informational message. -/
def setup_environment_variables (fs : List String) : List Event :=
  if fs.contains ".env" then
    [Event.print "Cargando variables de entorno desde el archivo .env...",
     Event.print "Variables de entorno configuradas."]
  else
    [Event.print "No se encontró un archivo .env. Puedes crear uno para definir variables de entorno."]

/-- `install_python_dependencies`: when `requirements.txt` exists in the
current directory, run the venv pip install with `check=True` (a failure
raises, `raised = true`); otherwise skip with a message. -/
def install_python_dependencies (fs : List String) (pipExit : Nat) :
    Bool × List Event :=
  if fs.contains "requirements.txt" then
    if pipExit = 0 then
      (false, [Event.print "Se detectó requirements.txt. Instalando dependencias de Python...",
               Event.runCmd ["venv/bin/pip", "install", "-r", "requirements.txt"] true,
               Event.print "Dependencias de Python instaladas correctamente."])
    else
      (true, [Event.print "Se detectó requirements.txt. Instalando dependencias de Python...",
              Event.runCmd ["venv/bin/pip", "install", "-r", "requirements.txt"] true])
  else
    (false, [Event.print "No se detectó requirements.txt. Saltando instalación de dependencias de Python."])

/-- `install_node_dependencies`: when `package.json` exists in the current
directory, run `npm install` with `check=True` (a failure raises); otherwise
skip with a message. -/
def install_node_dependencies (fs : List String) (npmExit : Nat) :
    Bool × List Event :=
  if fs.contains "package.json" then
    if npmExit = 0 then
      (false, [Event.print "Se detectó package.json. Instalando dependencias de Node.js...",
               Event.runCmd ["npm", "install"] true,
               Event.print "Dependencias de Node.js instaladas correctamente."])
    else
      (true, [Event.print "Se detectó package.json. Instalando dependencias de Node.js...",
              Event.runCmd ["npm", "install"] true])
  else
    (false, [Event.print "No se detectó package.json. Saltando instalación de dependencias de Node.js."])

/-- The environment a whole run of `main` observes: exit statuses of the
subprocesses it may spawn, the filesystem, the binaries present, the current
directory, the platform, and the lines waiting on standard input. -/
structure World where
  lsRemoteExit : Nat
  probeTempDir : String
  probeCloneExit : Nat
  probeFiles : List String
  mkResult : MakedirsResult
  cloneExit : Nat
  cloneStderr : String
  repoFiles : List String
  bins : SysBins
  cmdExit : List String → Nat
  shellExit : String → Nat
  cwd : String
  osName : String
  pyExe : String
  venvExit : Nat
  pipExit : Nat
  npmExit : Nat
  fs : List String
  stdin : List String

/-- Result of a whole run: whether an uncaught exception terminated it, the
final filesystem, and the ordered events. -/
structure MainOut where
  raised : Bool
  fs : List String
  events : List Event

/-- `main`: the twelve-step pipeline. Early returns: invalid URL, empty name
or file list from the probe, failed destination selection; a failed real clone
skips the rest of the run; the probe clone, the venv creation and the two
targeted installs raise uncaught on failure. -/
def main (w : World) : MainOut :=
  let ev0 : List Event :=
    [Event.print "Bienvenido al asistente de configuración de su entorno de desarrollo."]
  let (urlRaw, stdin1) := readLine w.stdin
  let url := pyStrip urlRaw
  let (ok, evVer) := verificar_url_repositorio url w.lsRemoteExit
  if ok then
    let evOk : List Event := [Event.print "URL verificado correctamente."]
    let po := obtener_nombre_y_archivos_repositorio url w.fs w.probeTempDir
      w.probeCloneExit w.probeFiles
    match po.result with
    | none =>
        { raised := true, fs := po.fs, events := ev0 ++ evVer ++ evOk ++ po.events }
    | some (nombre, archivos) =>
        if !nombre.isEmpty && !archivos.isEmpty then
          let evRepo : List Event :=
            [Event.print ("Nombre del repositorio: " ++ nombre),
             Event.print "Archivos del repositorio (vista previa de 10 archivos):"]
            ++ (archivos.take 10).map (fun a => Event.print ("  - " ++ a))
          let so := seleccionar_carpeta_clonacion w.cwd po.fs stdin1 w.mkResult
          match so.result with
          | some carpeta =>
              let evSel : List Event :=
                [Event.print ("El repositorio se clonará en: " ++ carpeta)]
              let (_, stdin2) := readLine so.stdin
              let co := clone_repository url carpeta so.fs w.cloneExit w.cloneStderr w.repoFiles
              if co.success then
                let evClone : List Event := [Event.print "Repositorio clonado exitosamente."]
                let (deps, evDet) := detect_dependencies co.fs carpeta
                let (_, evInst) := install_required_dependencies w.bins deps stdin2
                  w.cmdExit w.shellExit
                let vo := setup_python_virtualenv co.fs w.osName w.pyExe w.venvExit
                let pre := ev0 ++ evVer ++ evOk ++ po.events ++ evRepo ++ so.events
                  ++ evSel ++ co.events ++ evClone ++ evDet ++ evInst ++ vo.events
                if vo.raised then
                  { raised := true, fs := vo.fs, events := pre }
                else
                  let evEnv := setup_environment_variables vo.fs
                  let (pipRaised, evPip) := install_python_dependencies vo.fs w.pipExit
                  if pipRaised then
                    { raised := true, fs := vo.fs, events := pre ++ evEnv ++ evPip }
                  else
                    let (npmRaised, evNpm) := install_node_dependencies vo.fs w.npmExit
                    { raised := npmRaised, fs := vo.fs,
                      events := pre ++ evEnv ++ evPip ++ evNpm }
              else
                { raised := false, fs := co.fs,
                  events := ev0 ++ evVer ++ evOk ++ po.events ++ evRepo ++ so.events
                    ++ evSel ++ co.events }
          | none =>
              { raised := false, fs := so.fs,
                events := ev0 ++ evVer ++ evOk ++ po.events ++ evRepo ++ so.events
                  ++ [Event.print "Error al seleccionar la carpeta de clonación. Proceso terminado."] }
        else
          { raised := false, fs := po.fs,
            events := ev0 ++ evVer ++ evOk ++ po.events
              ++ [Event.print "No se pudieron obtener los detalles del repositorio. Proceso terminado."] }
  else
    { raised := false, fs := w.fs,
      events := ev0 ++ evVer
        ++ [Event.print "Proceso terminado. Verifique el URL e intente de nuevo."] }

/-- A concrete world for Scenario A: valid URL, successful probe of an empty
repository (empty file list), user would decline the custom destination, no
manifests anywhere, everything else benign. -/
def w2 : World where
  lsRemoteExit := 0
  probeTempDir := "/tmp/tmpx1"
  probeCloneExit := 0
  probeFiles := []
  mkResult := MakedirsResult.ok
  cloneExit := 0
  cloneStderr := ""
  repoFiles := []
  bins := ⟨true, true, true, true, true⟩
  cmdExit := fun _ => 0
  shellExit := fun _ => 0
  cwd := "/work"
  osName := "posix"
  pyExe := "/usr/bin/python3"
  venvExit := 0
  pipExit := 0
  npmExit := 0
  fs := []
  stdin := ["https://example.com/repo.git", "n", ""]

/-- A concrete world whose remote listing fails with git's exit status 128. -/
def w5 : World where
  lsRemoteExit := 128
  probeTempDir := "/tmp/tmpx2"
  probeCloneExit := 0
  probeFiles := ["README.md"]
  mkResult := MakedirsResult.ok
  cloneExit := 0
  cloneStderr := ""
  repoFiles := ["README.md"]
  bins := ⟨true, true, true, true, true⟩
  cmdExit := fun _ => 0
  shellExit := fun _ => 0
  cwd := "/work"
  osName := "posix"
  pyExe := "/usr/bin/python3"
  venvExit := 0
  pipExit := 0
  npmExit := 0
  fs := []
  stdin := ["https://bad.example/nope.git"]

/-! ## Claim theorems -/

/-- C1 (counterexample): the claim that only the literal lowercase `"s"` counts
as yes is false: the selector lowercases the stripped answer first, so on the
input `"S"` it does not return the default directory — it asks for and returns
the custom path. -/
theorem c1_counterexample :
    (seleccionar_carpeta_clonacion "/home/user" [] ["S", "/custom"]
        MakedirsResult.ok).result ≠ some "/home/user" := by
  decide

/-- C1 (amended): the change-directory answer counts as yes exactly when it
equals `"s"` after stripping surrounding whitespace and lowercasing; whenever
the normalized answer differs from `"s"` (e.g. `"yes"`), the selector returns
the original default directory unchanged. -/
theorem c1_amended (default_dir : String) (fs : List String) (ans : String)
    (rest : List String) (mk : MakedirsResult)
    (h : pyLower (pyStrip ans) ≠ "s") :
    (seleccionar_carpeta_clonacion default_dir fs (ans :: rest) mk).result
      = some default_dir := by
  simp [seleccionar_carpeta_clonacion, readLine, h]

/-- C1 (witness): the amended statement at the concrete answer `"yes"`. -/
theorem c1_amended_witness :
    pyLower (pyStrip "yes") ≠ "s" ∧
      (seleccionar_carpeta_clonacion "/home/user" [] ["yes"]
          MakedirsResult.ok).result = some "/home/user" :=
  ⟨by decide, c1_amended "/home/user" [] "yes" [] MakedirsResult.ok (by decide)⟩

/-- C10: the selector strips and lowercases its answer while the installer
prompts only lowercase, so the input `"s "` (an `s` followed by a space) is
yes for the Destination Selector but no for both `install_dependency` and the
Phase B prompt (which print their manual-instruction branch). -/
theorem c10_prompt_normalization_mismatch :
    pyLower (pyStrip "s ") = "s" ∧ pyLower "s " ≠ "s" ∧
    (seleccionar_carpeta_clonacion "/d" [] ["s ", "/c"]
        MakedirsResult.ok).result = some "/c" ∧
    (install_dependency "pip" ["python3", "-m", "ensurepip", "--upgrade"]
        "manual" ["s "] 0).snd =
      [Event.print "Se necesita instalar pip.",
       Event.print "Instrucciones para instalar pip manualmente:",
       Event.print "manual"] ∧
    (install_required_dependencies ⟨true, true, true, true, true⟩
        [("Python", "requirements.txt")] ["s "] (fun _ => 0) (fun _ => 0)).snd =
      [Event.print "Para completar la instalación de Python:",
       Event.print "Instrucción: Ejecuta 'pip install -r requirements.txt' en el entorno virtual."] := by
  refine ⟨by decide, by decide, by decide, rfl, rfl⟩

/-- C4: when a project folder holds both `requirements.txt` and `Pipfile`, the
dependency map sends `"Python"` to `"requirements.txt"`, and the pair
`("Python", "Pipfile")` never appears: the `elif` short-circuits the Pipfile
branch. -/
theorem c4_requirements_preferred (fs : List String) (folder : String)
    (hreq : fs.contains (pathJoin folder "requirements.txt") = true)
    (hpip : fs.contains (pathJoin folder "Pipfile") = true) :
    (detect_dependencies fs folder).fst.lookup "Python" = some "requirements.txt" ∧
      ("Python", "Pipfile") ∉ (detect_dependencies fs folder).fst := by
  have hr : pathJoin folder "requirements.txt" ∈ fs := by simpa using hreq
  unfold detect_dependencies
  by_cases hn : pathJoin folder "package.json" ∈ fs <;>
    by_cases hv : pathJoin folder "venv" ∈ fs <;>
      simp [hr, hn, hv, List.lookup]

/-- C4 (witness): both manifests present in a concrete folder. -/
theorem c4_requirements_preferred_witness :
    ["p/requirements.txt", "p/Pipfile"].contains (pathJoin "p" "requirements.txt") = true ∧
    ["p/requirements.txt", "p/Pipfile"].contains (pathJoin "p" "Pipfile") = true ∧
    ((detect_dependencies ["p/requirements.txt", "p/Pipfile"] "p").fst.lookup "Python"
        = some "requirements.txt" ∧
      ("Python", "Pipfile") ∉ (detect_dependencies ["p/requirements.txt", "p/Pipfile"] "p").fst) :=
  ⟨by decide, by decide,
    c4_requirements_preferred ["p/requirements.txt", "p/Pipfile"] "p" (by decide) (by decide)⟩

/-- C9: every entry of the dependency map is one of the three known ecosystems
with its triggering manifest: `Node.js ↦ package.json`,
`Python ↦ requirements.txt` or `Pipfile`, and
`Python virtual environment ↦ venv`. -/
theorem c9_detect_dependencies_range (fs : List String) (folder k v : String)
    (h : (k, v) ∈ (detect_dependencies fs folder).fst) :
    (k = "Node.js" ∧ v = "package.json") ∨
      (k = "Python" ∧ (v = "requirements.txt" ∨ v = "Pipfile")) ∨
      (k = "Python virtual environment" ∧ v = "venv") := by
  revert h
  unfold detect_dependencies
  by_cases hn : pathJoin folder "package.json" ∈ fs <;>
    by_cases hr : pathJoin folder "requirements.txt" ∈ fs <;>
      by_cases hp : pathJoin folder "Pipfile" ∈ fs <;>
        by_cases hv : pathJoin folder "venv" ∈ fs <;>
          simp [hn, hr, hp, hv] <;> tauto

/-- C9 (witness): the range statement at a concrete folder and entry. -/
theorem c9_detect_dependencies_range_witness :
    ("Node.js", "package.json") ∈ (detect_dependencies ["p/package.json"] "p").fst ∧
    (("Node.js" = "Node.js" ∧ "package.json" = "package.json") ∨
      ("Node.js" = "Python" ∧ ("package.json" = "requirements.txt" ∨ "package.json" = "Pipfile")) ∨
      ("Node.js" = "Python virtual environment" ∧ "package.json" = "venv")) :=
  ⟨by decide, c9_detect_dependencies_range ["p/package.json"] "p" "Node.js" "package.json" (by decide)⟩

/-- C7: the probe's scratch directory does not exist after
`obtener_nombre_y_archivos_repositorio` finishes, whether the clone subprocess
succeeded or raised: the `with` block releases it unconditionally. -/
theorem c7_probe_tempdir_cleanup (url : String) (fs : List String)
    (tempDir : String) (probeCloneExit : Nat) (probeFiles : List String)
    (h : tempDir ∉ fs) :
    tempDir ∉ (obtener_nombre_y_archivos_repositorio url fs tempDir
        probeCloneExit probeFiles).fs := by
  unfold obtener_nombre_y_archivos_repositorio
  split <;> simpa [List.erase_cons_head] using h

/-- C7 (witness): cleanup at a concrete fresh scratch directory, failing clone. -/
theorem c7_probe_tempdir_cleanup_witness :
    "/tmp/tmpabc" ∉ (["proj"] : List String) ∧
      "/tmp/tmpabc" ∉ (obtener_nombre_y_archivos_repositorio "u" ["proj"]
          "/tmp/tmpabc" 1 []).fs :=
  ⟨by decide, c7_probe_tempdir_cleanup "u" ["proj"] "/tmp/tmpabc" 1 [] (by decide)⟩

/-- C3 (counterexample): the claim that `clone_repository` creates the
destination non-recursively is false: on the missing destination
`"padre/hijo"` over an empty filesystem, the missing parent `"padre"` exists
after the call — `os.makedirs` created it. -/
theorem c3_counterexample :
    (clone_repository "url" "padre/hijo" [] 0 "" []).fs.contains "padre" = true := by
  decide

/-- C3 (amended): given a destination that does not exist, `clone_repository`
creates it with the same recursive `os.makedirs` creation the Destination
Selector uses: every level of the destination path, missing parents included,
exists afterwards. -/
theorem c3_amended (repo_url destination_folder : String) (fs : List String)
    (cloneExit : Nat) (stderr : String) (repoFiles : List String)
    (h : fs.contains destination_folder = false) :
    ∀ p ∈ pathLevels destination_folder,
      p ∈ (clone_repository repo_url destination_folder fs cloneExit stderr repoFiles).fs := by
  intro p hp
  have h' : destination_folder ∉ fs := by simpa using h
  unfold clone_repository
  by_cases hc : cloneExit = 0 <;> simp [hc, h', makedirs, hp]

/-- C3 (witness): the amended statement at the concrete destination
`"padre/hijo"` over an empty filesystem. -/
theorem c3_amended_witness :
    ([] : List String).contains "padre/hijo" = false ∧
      ∀ p ∈ pathLevels "padre/hijo",
        p ∈ (clone_repository "url" "padre/hijo" [] 0 "" []).fs :=
  ⟨by decide, c3_amended "url" "padre/hijo" [] 0 "" [] (by decide)⟩

/-- C8: when the `venv` directory already exists, `setup_python_virtualenv`
invokes no subprocess at all, leaves the filesystem unchanged, and a second
run produces exactly the same output, activation-command line included. -/
theorem c8_venv_idempotent (fs : List String) (osName pyExe : String)
    (e1 e2 : Nat) (h : fs.contains "venv" = true) :
    (∀ cmd checked,
        Event.runCmd cmd checked ∉ (setup_python_virtualenv fs osName pyExe e1).events) ∧
    (setup_python_virtualenv (setup_python_virtualenv fs osName pyExe e1).fs
        osName pyExe e2).events = (setup_python_virtualenv fs osName pyExe e1).events ∧
    (setup_python_virtualenv fs osName pyExe e1).fs = fs := by
  have h' : "venv" ∈ fs := by simpa using h
  unfold setup_python_virtualenv
  simp [h']

/-- C8 (witness): idempotence on a filesystem already holding `venv`. -/
theorem c8_venv_idempotent_witness :
    (["venv"] : List String).contains "venv" = true ∧
    ((∀ cmd checked,
        Event.runCmd cmd checked ∉ (setup_python_virtualenv ["venv"] "posix" "py" 0).events) ∧
      (setup_python_virtualenv (setup_python_virtualenv ["venv"] "posix" "py" 0).fs
          "posix" "py" 1).events = (setup_python_virtualenv ["venv"] "posix" "py" 0).events ∧
      (setup_python_virtualenv ["venv"] "posix" "py" 0).fs = ["venv"]) :=
  ⟨by decide, c8_venv_idempotent ["venv"] "posix" "py" 0 1 (by decide)⟩

/-- C6: with both ecosystems detected and all toolchains present, Phase B of
`install_required_dependencies` is best-effort: its whole outcome is the same
for any exit statuses of the shell commands (the project-level installs run
with `check=False`, so a failing install never raises and never stops the
run); answering yes to the Node prompt records the unchecked `npm install`
execution and the Python prompt is still reached afterwards, and answering no
to the Python prompt prints the manual instruction string instead. -/
theorem c6_phaseB_best_effort (bins : SysBins) (deps : List (String × String))
    (s1 s2 : String) (rest : List String) (cmdExit : List String → Nat)
    (shellExit shellExit2 : String → Nat)
    (hgit : bins.git = true) (hnode : bins.node = true) (hnpm : bins.npm = true)
    (hpy : bins.python3 = true) (hpip : bins.pip = true)
    (hN : hasDep deps "Node.js" = true) (hP : hasDep deps "Python" = true) :
    install_required_dependencies bins deps (s1 :: s2 :: rest) cmdExit shellExit
      = install_required_dependencies bins deps (s1 :: s2 :: rest) cmdExit shellExit2 ∧
    (pyLower s1 = "s" →
      Event.runShell "npm install" false
          ∈ (install_required_dependencies bins deps (s1 :: s2 :: rest) cmdExit shellExit).snd ∧
        Event.print "Para completar la instalación de Python:"
          ∈ (install_required_dependencies bins deps (s1 :: s2 :: rest) cmdExit shellExit).snd) ∧
    (pyLower s2 ≠ "s" →
      Event.print "Instrucción: Ejecuta 'pip install -r requirements.txt' en el entorno virtual."
        ∈ (install_required_dependencies bins deps (s1 :: s2 :: rest) cmdExit shellExit).snd) := by
  by_cases h1 : pyLower s1 = "s" <;> by_cases h2 : pyLower s2 = "s" <;>
    simp [install_required_dependencies, phaseB_step, readLine,
      hgit, hnode, hnpm, hpy, hpip, hN, hP, h1, h2]

/-- C6 (witness): both ecosystems detected, yes to Node, no to Python, and two
different exit-status environments. -/
theorem c6_phaseB_best_effort_witness :
    (SysBins.mk true true true true true).git = true ∧
    hasDep [("Node.js", "package.json"), ("Python", "requirements.txt")] "Node.js" = true ∧
    hasDep [("Node.js", "package.json"), ("Python", "requirements.txt")] "Python" = true ∧
    (install_required_dependencies ⟨true, true, true, true, true⟩
        [("Node.js", "package.json"), ("Python", "requirements.txt")]
        ["s", "n"] (fun _ => 0) (fun _ => 1)
      = install_required_dependencies ⟨true, true, true, true, true⟩
        [("Node.js", "package.json"), ("Python", "requirements.txt")]
        ["s", "n"] (fun _ => 0) (fun _ => 0) ∧
    (pyLower "s" = "s" →
      Event.runShell "npm install" false
          ∈ (install_required_dependencies ⟨true, true, true, true, true⟩
              [("Node.js", "package.json"), ("Python", "requirements.txt")]
              ["s", "n"] (fun _ => 0) (fun _ => 1)).snd ∧
        Event.print "Para completar la instalación de Python:"
          ∈ (install_required_dependencies ⟨true, true, true, true, true⟩
              [("Node.js", "package.json"), ("Python", "requirements.txt")]
              ["s", "n"] (fun _ => 0) (fun _ => 1)).snd) ∧
    (pyLower "n" ≠ "s" →
      Event.print "Instrucción: Ejecuta 'pip install -r requirements.txt' en el entorno virtual."
        ∈ (install_required_dependencies ⟨true, true, true, true, true⟩
            [("Node.js", "package.json"), ("Python", "requirements.txt")]
            ["s", "n"] (fun _ => 0) (fun _ => 1)).snd)) :=
  ⟨rfl, by decide, by decide,
    c6_phaseB_best_effort ⟨true, true, true, true, true⟩
      [("Node.js", "package.json"), ("Python", "requirements.txt")]
      "s" "n" [] (fun _ => 0) (fun _ => 1) (fun _ => 0)
      rfl rfl rfl rfl rfl (by decide) (by decide)⟩

/-- C5: when `git ls-remote` exits non-zero the validator prints its report and
returns invalid, and the run halts with the terminal message before attempting
any clone: no `git clone` subprocess of any form appears among the run's
events. -/
theorem c5_invalid_url_halts (w : World) (h : w.lsRemoteExit ≠ 0) :
    (verificar_url_repositorio (pyStrip (readLine w.stdin).fst) w.lsRemoteExit).fst = false ∧
    Event.print "URL no válido o no se pudo conectar al repositorio." ∈ (main w).events ∧
    Event.print "Proceso terminado. Verifique el URL e intente de nuevo." ∈ (main w).events ∧
    (∀ args checked, Event.runCmd ("git" :: "clone" :: args) checked ∉ (main w).events) := by
  obtain ⟨ls, ptd, pce, pf, mkr, ce, cs, rf, bins, cE, sE, cwd, osn, pe, ve, pipE, npmE, fs, stdin⟩ := w
  cases stdin <;> simp [main, verificar_url_repositorio, readLine, h] at h ⊢

/-- C5 (witness): a concrete world whose `git ls-remote` exits with status 128. -/
theorem c5_invalid_url_halts_witness :
    w5.lsRemoteExit ≠ 0 ∧
    ((verificar_url_repositorio (pyStrip (readLine w5.stdin).fst) w5.lsRemoteExit).fst = false ∧
      Event.print "URL no válido o no se pudo conectar al repositorio." ∈ (main w5).events ∧
      Event.print "Proceso terminado. Verifique el URL e intente de nuevo." ∈ (main w5).events ∧
      (∀ args checked, Event.runCmd ("git" :: "clone" :: args) checked ∉ (main w5).events)) :=
  ⟨by decide, c5_invalid_url_halts w5 (by decide)⟩

/-- C2 (counterexample): on a run where the URL validates, the probe clone
succeeds and yields an empty file list, and the user would decline a custom
destination, `main` does not complete the pipeline: it prints the
details-unavailable terminal message, never reaches dependency detection, and
creates no `venv`. -/
theorem c2_counterexample :
    Event.print "No se pudieron obtener los detalles del repositorio. Proceso terminado."
        ∈ (main w2).events ∧
      Event.print "--- Detectando dependencias ---" ∉ (main w2).events ∧
      (main w2).fs.contains "venv" = false := by
  decide

/-- C2 (amended): for a run where the URL validates and the probe yields an
empty file list, `main` halts right after the probe with the message
`"No se pudieron obtener los detalles del repositorio. Proceso terminado."`:
no exception is raised, dependency detection is never reached (so no
installation prompt is ever printed), and no venv-creation subprocess runs. -/
theorem c2_amended (w : World) (h0 : w.lsRemoteExit = 0)
    (h1 : w.probeCloneExit = 0) (h2 : w.probeFiles = []) :
    (main w).raised = false ∧
    Event.print "No se pudieron obtener los detalles del repositorio. Proceso terminado."
      ∈ (main w).events ∧
    Event.print "--- Detectando dependencias ---" ∉ (main w).events ∧
    (∀ checked, Event.runCmd [w.pyExe, "-m", "venv", "venv"] checked ∉ (main w).events) := by
  obtain ⟨ls, ptd, pce, pf, mkr, ce, cs, rf, bins, cE, sE, cwd, osn, pe, ve, pipE, npmE, fs, stdin⟩ := w
  simp only at h0 h1 h2
  subst h0 h1 h2
  cases stdin <;>
    simp [main, verificar_url_repositorio, obtener_nombre_y_archivos_repositorio,
      readLine]

/-- C2 (witness): the amended statement at the concrete world `w2`. -/
theorem c2_amended_witness :
    w2.lsRemoteExit = 0 ∧ w2.probeCloneExit = 0 ∧ w2.probeFiles = [] ∧
    ((main w2).raised = false ∧
      Event.print "No se pudieron obtener los detalles del repositorio. Proceso terminado."
        ∈ (main w2).events ∧
      Event.print "--- Detectando dependencias ---" ∉ (main w2).events ∧
      (∀ checked, Event.runCmd [w2.pyExe, "-m", "venv", "venv"] checked ∉ (main w2).events)) :=
  ⟨rfl, rfl, rfl, c2_amended w2 rfl rfl rfl⟩

end EntornoDesarrollo
